import Mathlib

/-!
# Go-WebSocket: the upgrade handler and the registration handler

A shallow embedding of the two HTTP handlers of the repository,

* `servers.Controller.Run`  (servers/connect.go), which upgrades a request to
  a websocket connection and creates a session for it, and
* `register.Controller.Run` (api/register/register.go), which registers a
  system id.

Both handlers are straight-line glue code around collaborators (the websocket
upgrader, the connection, the client manager, the validator, ...).  A handler
is embedded as a function from the results its collaborators hand back to the
list of calls it makes on them, in program order.  Every statement below is a
statement about that list.
-/

/-- Go's builtin `len` on a string: the number of bytes. -/
def len (s : String) : Nat := s.utf8ByteSize

/-- A websocket connection handle (`*websocket.Conn`), named by a number. -/
abbrev Conn := Nat

namespace retcode

/-- The reply codes of package `define/retcode`.  The handlers only name the
constants; their values are fixed elsewhere, so they are taken as given. -/
structure Codes where
  SUCCESS : Int
  FAIL : Int
  SYSTEM_ID_ERROR : Int
deriving DecidableEq, Repr

end retcode

namespace servers

/-- The constant `maxMessageSize` of connect.go. -/
def maxMessageSize : Nat := 8192

/-- The struct `renderData` of connect.go. -/
structure renderData where
  ClientId : String
deriving DecidableEq, Repr

/-- Modelled from the spec: the session value `NewClient` returns (client.go
is not among the sources).  A Connection Session carries its client
identifier, its group identifier and the connection handle it owns. -/
structure Client where
  ClientId : String
  SystemId : String
  Socket : Conn
deriving DecidableEq, Repr

/-- Modelled from the spec: `NewClient(clientId, systemId, conn)`, which
constructs a session owning the handle and has no other effect. -/
def NewClient (clientId systemId : String) (conn : Conn) : Client :=
  ⟨clientId, systemId, conn⟩

/-- The calls `Controller.Run` makes on its collaborators, with their
arguments. -/
inductive Call where
  /-- The call `(&websocket.Upgrader{...}).Upgrade(w, r, nil)` -/
  | Upgrade
  /-- The call `log.Errorf("upgrade error: %v", err)` -/
  | Errorf (err : String)
  /-- The call `http.NotFound(w, r)` -/
  | NotFound
  /-- The call `conn.SetReadLimit(n)` -/
  | SetReadLimit (conn : Conn) (n : Nat)
  /-- The call `r.FormValue(key)` -/
  | FormValue (key : String)
  /-- The call `Render(conn, messageId, sendUserId, code, msg, data)` -/
  | Render (conn : Conn) (messageId sendUserId : String) (code : Int)
      (msg : String) (data : List String)
  /-- The call `conn.Close()` -/
  | Close (conn : Conn)
  /-- The call `util.GenClientId()` -/
  | GenClientId
  /-- The call `NewClient(clientId, systemId, conn)` -/
  | NewClient (clientId systemId : String) (conn : Conn)
  /-- The call `Manager.AddClient2SystemClient(systemId, clientSocket)` -/
  | AddClient2SystemClient (systemId : String) (client : Client)
  /-- The call `clientSocket.Read()` -/
  | Read (client : Client)
  /-- The call `api.ConnRender(conn, data)` -/
  | ConnRender (conn : Conn) (data : renderData)
  /-- The call `Manager.Connect <- clientSocket` -/
  | ConnectSend (client : Client)
deriving DecidableEq, Repr

/-- What the request and the collaborators hand back to `Controller.Run`. -/
structure Input where
  /-- The result of `Upgrade(w, r, nil)`: the connection, or the error. -/
  Upgrade : Except String Conn
  /-- The request's form values, `r.FormValue`; a missing key reads as "". -/
  FormValue : String → String
  /-- The identifier `util.GenClientId()` returns. -/
  GenClientId : String
  /-- The error `api.ConnRender(conn, data)` returns, `none` for nil. -/
  ConnRender : Conn → renderData → Option String

/-- The method `Controller.Run` of connect.go: the calls it makes, in program
order. -/
def Controller.Run (rc : retcode.Codes) (i : Input) : List Call :=
  -- conn, err := (&websocket.Upgrader{...}).Upgrade(w, r, nil)
  match i.Upgrade with
  | .error err =>
    -- log.Errorf("upgrade error: %v", err); http.NotFound(w, r); return
    [.Upgrade, .Errorf err, .NotFound]
  | .ok conn =>
    -- conn.SetReadLimit(maxMessageSize)
    -- systemId := r.FormValue("systemId")
    let systemId := i.FormValue "systemId"
    [.Upgrade, .SetReadLimit conn maxMessageSize, .FormValue "systemId"] ++
    if len systemId = 0 then
      -- _ = Render(conn, "", "", retcode.SYSTEM_ID_ERROR, "系统ID不能为空", []string{})
      -- _ = conn.Close(); return
      [.Render conn "" "" rc.SYSTEM_ID_ERROR "系统ID不能为空" [], .Close conn]
    else
      -- clientId := util.GenClientId()
      let clientId := i.GenClientId
      -- clientSocket := NewClient(clientId, systemId, conn)
      let clientSocket := NewClient clientId systemId conn
      -- Manager.AddClient2SystemClient(systemId, clientSocket)
      -- clientSocket.Read()
      [.GenClientId, .NewClient clientId systemId conn,
       .AddClient2SystemClient systemId clientSocket, .Read clientSocket,
       .ConnRender conn ⟨clientId⟩] ++
      -- if err = api.ConnRender(conn, renderData{ClientId: clientId}); err != nil
      match i.ConnRender conn ⟨clientId⟩ with
      | some _ =>
        -- _ = conn.Close(); return
        [.Close conn]
      | none =>
        -- Manager.Connect <- clientSocket
        [.ConnectSend clientSocket]

/-- Whether call `a` occurs in the list strictly before an occurrence of call
`b`. -/
def occursBefore (a b : Call) : List Call → Bool
  | [] => false
  | x :: xs => (x == a && xs.contains b) || occursBefore a b xs

/-- Classifiers of calls, used to count them. -/
def Call.isSetReadLimit : Call → Bool
  | .SetReadLimit _ _ => true
  | _ => false

/-- A call of `Render`. -/
def Call.isRender : Call → Bool
  | .Render _ _ _ _ _ _ => true
  | _ => false

/-- A call of `util.GenClientId`. -/
def Call.isGenClientId : Call → Bool
  | .GenClientId => true
  | _ => false

/-- A call of `NewClient`. -/
def Call.isNewClient : Call → Bool
  | .NewClient _ _ _ => true
  | _ => false

/-- A call of `Manager.AddClient2SystemClient`. -/
def Call.isAddClient2SystemClient : Call → Bool
  | .AddClient2SystemClient _ _ => true
  | _ => false

/-- A call of `clientSocket.Read`. -/
def Call.isRead : Call → Bool
  | .Read _ => true
  | _ => false

/-- A call of `api.ConnRender`. -/
def Call.isConnRender : Call → Bool
  | .ConnRender _ _ => true
  | _ => false

/-- A send on `Manager.Connect`. -/
def Call.isConnectSend : Call → Bool
  | .ConnectSend _ => true
  | _ => false

/-- Modelled from the spec: the client manager `Manager` (manager.go is not
among the sources), as far as a run of `Controller.Run` reaches it: the Group Table,
a set of (group id, session) memberships, and the events queued on the
`Connect` and `DisConnect` channels. -/
structure ClientManager where
  GroupTable : List (String × Client)
  Connect : List Client
  DisConnect : List Client
deriving DecidableEq, Repr

/-- Modelled from the spec: `Manager.AddClient2SystemClient`, the Group
Table's `Insert(groupId, session)`, which adds the session to the group's
set (a set: a membership already present is not added twice). -/
def ClientManager.AddClient2SystemClient (m : ClientManager) (systemId : String)
    (client : Client) : ClientManager :=
  if (systemId, client) ∈ m.GroupTable then m
  else ⟨m.GroupTable ++ [(systemId, client)], m.Connect, m.DisConnect⟩

/-- Modelled from the spec: what a session's read loop does when it exits
(client.go is not among the sources): the session is removed from the Group
Table, which is a no-op when it is absent, and exactly one disconnect event is
emitted for it. -/
def ClientManager.teardown (m : ClientManager) (client : Client) : ClientManager :=
  ⟨m.GroupTable.filter (fun p => decide (p ≠ (client.SystemId, client))), m.Connect,
   m.DisConnect ++ [client]⟩

/-- Modelled from the spec: the manager together with the sessions whose read
loop, started by `clientSocket.Read()`, is running on their connection. -/
structure Broker where
  Manager : ClientManager
  Reading : List Client
deriving DecidableEq, Repr

/-- Modelled from the spec: the effect of one call of `Controller.Run` on the
manager and the read loops.  The insertion and the send on `Connect` reach the
manager directly; `clientSocket.Read()` starts the session's read loop; and
`conn.Close()` is the cancellation of the sessions reading on that connection:
their read loop gets a read error, exits, and tears the session down.  The
exit is taken at the call of `Close`; the scheduling of the read loop's
goroutine is not part of the model. -/
def Broker.step (b : Broker) : Call → Broker
  | .AddClient2SystemClient systemId client =>
    ⟨b.Manager.AddClient2SystemClient systemId client, b.Reading⟩
  | .Read client => ⟨b.Manager, b.Reading ++ [client]⟩
  | .Close conn =>
    ⟨(b.Reading.filter (fun c => decide (c.Socket = conn))).foldl
        ClientManager.teardown b.Manager,
     b.Reading.filter (fun c => decide (c.Socket ≠ conn))⟩
  | .ConnectSend client =>
    ⟨⟨b.Manager.GroupTable, b.Manager.Connect ++ [client], b.Manager.DisConnect⟩, b.Reading⟩
  | _ => b

/-- The manager after the calls of one run of `Controller.Run`, which starts
on the manager `m` with no read loop of its own running yet (the read loops of
other requests run on other connections). -/
def ClientManager.after (m : ClientManager) (calls : List Call) : ClientManager :=
  (calls.foldl Broker.step ⟨m, []⟩).Manager

/-- Whether the session is a member of the group in the Group Table. -/
def ClientManager.member (m : ClientManager) (systemId : String) (client : Client) : Bool :=
  decide ((systemId, client) ∈ m.GroupTable)

/-- Sample reply codes. -/
def sampleCodes : retcode.Codes := ⟨0, -1, -1001⟩

/-- A request whose upgrade fails. -/
def sampleUpgradeError : Input := ⟨.error "bad handshake", fun _ => "sys1", "id1", fun _ _ => none⟩

/-- A request on connection 7 that carries no systemId. -/
def sampleNoSystemId : Input := ⟨.ok 7, fun _ => "", "id1", fun _ _ => none⟩

/-- A request on connection 7 for group "sys1" whose client-id reply is
written. -/
def sampleConnected : Input := ⟨.ok 7, fun _ => "sys1", "id1", fun _ _ => none⟩

/-- A request on connection 7 for group "sys1" whose client-id reply fails to
be written. -/
def sampleWriteError : Input :=
  ⟨.ok 7, fun _ => "sys1", "id1", fun _ _ => some "broken pipe"⟩

/-- A manager with no session and no queued event. -/
def emptyManager : ClientManager := ⟨[], [], []⟩

/-- A manager that holds one session of group "sys1", on connection 3, and no
queued event. -/
def sampleManager : ClientManager := ⟨[("sys1", ⟨"id0", "sys1", 3⟩)], [], []⟩

end servers

namespace register

/-- The struct `inputData` of register.go. -/
structure inputData where
  SystemId : String
deriving DecidableEq, Repr

/-- The constant `http.StatusBadRequest` of Go's net/http. -/
def StatusBadRequest : Nat := 400

/-- The calls `Controller.Run` makes on its collaborators, with their
arguments. -/
inductive Call where
  /-- The call `json.NewDecoder(r.Body).Decode(&inputData)` -/
  | Decode
  /-- The call `w.WriteHeader(status)` -/
  | WriteHeader (status : Nat)
  /-- The call `api.Validate(inputData)` -/
  | Validate (input : inputData)
  /-- The call `servers.Register(systemId)` -/
  | Register (systemId : String)
  /-- The call `api.Render(w, code, msg, data)` -/
  | Render (code : Int) (msg : String) (data : List String)
deriving DecidableEq, Repr

/-- What the request and the collaborators hand back to `Controller.Run`. -/
structure Input where
  /-- The result of decoding the request body as JSON: the decoded input,
  or the decoder's error. -/
  Decode : Except String inputData
  /-- The error `api.Validate` returns, by its message; `none` for nil. -/
  Validate : inputData → Option String
  /-- The error `servers.Register` returns, by its message; `none` for nil. -/
  Register : String → Option String

/-- The method `Controller.Run` of register.go: the calls it makes, in
program order. -/
def Controller.Run (rc : retcode.Codes) (i : Input) : List Call :=
  -- if err := json.NewDecoder(r.Body).Decode(&inputData); err != nil
  match i.Decode with
  | .error _ =>
    -- w.WriteHeader(http.StatusBadRequest); return
    [.Decode, .WriteHeader StatusBadRequest]
  | .ok inputData =>
    -- err := api.Validate(inputData)
    [.Decode, .Validate inputData] ++
    match i.Validate inputData with
    | some err =>
      -- api.Render(w, retcode.FAIL, err.Error(), []string{}); return
      [.Render rc.FAIL err []]
    | none =>
      -- err = servers.Register(inputData.SystemId)
      [.Register inputData.SystemId] ++
      match i.Register inputData.SystemId with
      | some err =>
        -- api.Render(w, retcode.FAIL, err.Error(), []string{}); return
        [.Render rc.FAIL err []]
      | none =>
        -- api.Render(w, retcode.SUCCESS, "success", []string{}); return
        [.Render rc.SUCCESS "success" []]

/-- A call of `servers.Register`. -/
def Call.isRegister : Call → Bool
  | .Register _ => true
  | _ => false

/-- A call of `api.Render`. -/
def Call.isRender : Call → Bool
  | .Render _ _ _ => true
  | _ => false

/-- Sample reply codes. -/
def sampleCodes : retcode.Codes := ⟨0, -1, -1001⟩

/-- A validator that requires a non-empty system id. -/
def sampleValidate (d : inputData) : Option String :=
  if d.SystemId = "" then some "SystemId is required" else none

/-- A request whose body is not JSON. -/
def sampleMalformed : Input := ⟨.error "invalid character", sampleValidate, fun _ => none⟩

/-- A request whose body decodes to an input the validator rejects. -/
def sampleInvalid : Input := ⟨.ok ⟨""⟩, sampleValidate, fun _ => none⟩

/-- A request for system "sys1" that is validated and registered. -/
def sampleRegistered : Input := ⟨.ok ⟨"sys1"⟩, sampleValidate, fun _ => none⟩

/-- A request for system "sys1" that is validated but whose registration
fails. -/
def sampleRegisterError : Input :=
  ⟨.ok ⟨"sys1"⟩, sampleValidate, fun _ => some "etcd unavailable"⟩

end register


/-! ## The upgrade handler, `servers.Controller.Run` -/

namespace servers

/-- The calls of `Controller.Run` when the upgrade fails. -/
theorem Run_upgrade_error (rc : retcode.Codes) (i : Input) (err : String)
    (hup : i.Upgrade = .error err) :
    Controller.Run rc i = [.Upgrade, .Errorf err, .NotFound] := by
  simp [Controller.Run, hup]

/-- The calls of `Controller.Run` when the upgrade succeeds and the system id
is empty. -/
theorem Run_empty_systemId (rc : retcode.Codes) (i : Input) (conn : Conn)
    (hup : i.Upgrade = .ok conn) (hid : len (i.FormValue "systemId") = 0) :
    Controller.Run rc i =
      [.Upgrade, .SetReadLimit conn maxMessageSize, .FormValue "systemId",
       .Render conn "" "" rc.SYSTEM_ID_ERROR "系统ID不能为空" [], .Close conn] := by
  simp [Controller.Run, hup, hid]

/-- The calls of `Controller.Run` when the upgrade succeeds, the system id is
not empty and writing the client-id reply fails. -/
theorem Run_write_error (rc : retcode.Codes) (i : Input) (conn : Conn) (err : String)
    (hup : i.Upgrade = .ok conn) (hid : len (i.FormValue "systemId") ≠ 0)
    (hw : i.ConnRender conn ⟨i.GenClientId⟩ = some err) :
    Controller.Run rc i =
      [.Upgrade, .SetReadLimit conn maxMessageSize, .FormValue "systemId",
       .GenClientId, .NewClient i.GenClientId (i.FormValue "systemId") conn,
       .AddClient2SystemClient (i.FormValue "systemId")
          (NewClient i.GenClientId (i.FormValue "systemId") conn),
       .Read (NewClient i.GenClientId (i.FormValue "systemId") conn),
       .ConnRender conn ⟨i.GenClientId⟩, .Close conn] := by
  simp [Controller.Run, hup, hid, hw]

/-- The calls of `Controller.Run` when the upgrade succeeds, the system id is
not empty and the client-id reply is written. -/
theorem Run_connected (rc : retcode.Codes) (i : Input) (conn : Conn)
    (hup : i.Upgrade = .ok conn) (hid : len (i.FormValue "systemId") ≠ 0)
    (hw : i.ConnRender conn ⟨i.GenClientId⟩ = none) :
    Controller.Run rc i =
      [.Upgrade, .SetReadLimit conn maxMessageSize, .FormValue "systemId",
       .GenClientId, .NewClient i.GenClientId (i.FormValue "systemId") conn,
       .AddClient2SystemClient (i.FormValue "systemId")
          (NewClient i.GenClientId (i.FormValue "systemId") conn),
       .Read (NewClient i.GenClientId (i.FormValue "systemId") conn),
       .ConnRender conn ⟨i.GenClientId⟩,
       .ConnectSend (NewClient i.GenClientId (i.FormValue "systemId") conn)] := by
  simp [Controller.Run, hup, hid, hw]

/-- The four paths of `Controller.Run`: every run takes exactly one of them. -/
theorem Run_cases (i : Input) :
    (∃ err, i.Upgrade = .error err) ∨
    (∃ conn, i.Upgrade = .ok conn ∧ len (i.FormValue "systemId") = 0) ∨
    (∃ conn err, i.Upgrade = .ok conn ∧ len (i.FormValue "systemId") ≠ 0 ∧
        i.ConnRender conn ⟨i.GenClientId⟩ = some err) ∨
    (∃ conn, i.Upgrade = .ok conn ∧ len (i.FormValue "systemId") ≠ 0 ∧
        i.ConnRender conn ⟨i.GenClientId⟩ = none) := by
  cases hup : i.Upgrade with
  | error err => exact Or.inl ⟨err, rfl⟩
  | ok conn =>
    by_cases hid : len (i.FormValue "systemId") = 0
    · exact Or.inr (Or.inl ⟨conn, rfl, hid⟩)
    · cases hw : i.ConnRender conn ⟨i.GenClientId⟩ with
      | some err => exact Or.inr (Or.inr (Or.inl ⟨conn, err, rfl, hid, hw⟩))
      | none => exact Or.inr (Or.inr (Or.inr ⟨conn, rfl, hid, hw⟩))

/-- `occursBefore a b` holds exactly when the list splits around an
occurrence of `a` followed, later, by an occurrence of `b`. -/
theorem occursBefore_iff (a b : Call) (l : List Call) :
    occursBefore a b l = true ↔ ∃ l1 l2 l3, l = l1 ++ a :: (l2 ++ b :: l3) := by
  induction l with
  | nil => simp [occursBefore]
  | cons x xs ih =>
    simp only [occursBefore, Bool.or_eq_true, Bool.and_eq_true, beq_iff_eq,
      List.contains, List.elem_iff, ih]
    constructor
    · rintro (⟨rfl, hb⟩ | ⟨l1, l2, l3, rfl⟩)
      · obtain ⟨l2, l3, rfl⟩ := List.append_of_mem hb
        exact ⟨[], l2, l3, rfl⟩
      · exact ⟨x :: l1, l2, l3, rfl⟩
    · rintro ⟨l1, l2, l3, h⟩
      cases l1 with
      | nil =>
        simp only [List.nil_append, List.cons.injEq] at h
        exact Or.inl ⟨h.1, by simp [h.2]⟩
      | cons y ys =>
        simp only [List.cons_append, List.cons.injEq] at h
        exact Or.inr ⟨ys, l2, l3, h.2⟩

/-- C1: when the upgrade succeeds and the systemId form value is missing or
empty, `Controller.Run` sets the read limit, writes exactly one error reply
carrying `retcode.SYSTEM_ID_ERROR`, the message "系统ID不能为空" and an empty
data list, then closes the connection and returns; it generates no client id,
calls neither `NewClient` nor `Manager.AddClient2SystemClient`, starts no read
loop, sends nothing on `Manager.Connect`, and leaves the manager as it was. -/
theorem C1_empty_systemId_rejected (rc : retcode.Codes) (i : Input) (conn : Conn)
    (hup : i.Upgrade = .ok conn) (hid : len (i.FormValue "systemId") = 0) :
    (Controller.Run rc i).filter Call.isRender =
        [.Render conn "" "" rc.SYSTEM_ID_ERROR "系统ID不能为空" []] ∧
    occursBefore (.Render conn "" "" rc.SYSTEM_ID_ERROR "系统ID不能为空" []) (.Close conn)
        (Controller.Run rc i) = true ∧
    (Controller.Run rc i).getLast? = some (.Close conn) ∧
    (Controller.Run rc i).countP Call.isGenClientId = 0 ∧
    (Controller.Run rc i).countP Call.isNewClient = 0 ∧
    (Controller.Run rc i).countP Call.isAddClient2SystemClient = 0 ∧
    (Controller.Run rc i).countP Call.isRead = 0 ∧
    (Controller.Run rc i).countP Call.isConnRender = 0 ∧
    (Controller.Run rc i).countP Call.isConnectSend = 0 ∧
    ∀ m : ClientManager, m.after (Controller.Run rc i) = m := by
  rw [Run_empty_systemId rc i conn hup hid]
  simp [occursBefore, Call.isRender, Call.isGenClientId, Call.isNewClient,
    Call.isAddClient2SystemClient, Call.isRead, Call.isConnRender, Call.isConnectSend,
    ClientManager.after, Broker.step]

/-- C1 at a request with no systemId on a connection that upgraded. -/
theorem C1_empty_systemId_rejected_witness :
    (Controller.Run sampleCodes sampleNoSystemId).filter Call.isRender =
        [.Render 7 "" "" (-1001) "系统ID不能为空" []] ∧
    (Controller.Run sampleCodes sampleNoSystemId).getLast? = some (.Close 7) ∧
    emptyManager.after (Controller.Run sampleCodes sampleNoSystemId) = emptyManager :=
  have h := C1_empty_systemId_rejected sampleCodes sampleNoSystemId 7 rfl (by decide)
  ⟨h.1, h.2.2.1, h.2.2.2.2.2.2.2.2.2 emptyManager⟩

/-- C2: `Controller.Run` creates a session exactly when the upgrade succeeds
and a non-empty systemId is supplied: `NewClient` and
`Manager.AddClient2SystemClient` are each called exactly once in that case and
not at all otherwise; when the upgrade fails `Run` only logs the error and
answers `http.NotFound`, and the manager (Group Table and Connect channel) is
left as it was. -/
theorem C2_session_created_iff (rc : retcode.Codes) (i : Input) :
    (((∃ conn, i.Upgrade = .ok conn) ∧ len (i.FormValue "systemId") ≠ 0) →
      (Controller.Run rc i).countP Call.isNewClient = 1 ∧
      (Controller.Run rc i).countP Call.isAddClient2SystemClient = 1) ∧
    (¬ ((∃ conn, i.Upgrade = .ok conn) ∧ len (i.FormValue "systemId") ≠ 0) →
      (Controller.Run rc i).countP Call.isNewClient = 0 ∧
      (Controller.Run rc i).countP Call.isAddClient2SystemClient = 0) ∧
    (∀ err, i.Upgrade = .error err →
      Controller.Run rc i = [.Upgrade, .Errorf err, .NotFound] ∧
      ∀ m : ClientManager, m.after (Controller.Run rc i) = m) := by
  rcases Run_cases i with ⟨err, hup⟩ | ⟨conn, hup, hid⟩ | ⟨conn, err, hup, hid, hw⟩ |
      ⟨conn, hup, hid, hw⟩
  · rw [Run_upgrade_error rc i err hup]
    simp [hup, Call.isNewClient, Call.isAddClient2SystemClient, ClientManager.after,
      Broker.step]
  · rw [Run_empty_systemId rc i conn hup hid]
    simp [hup, hid, Call.isNewClient, Call.isAddClient2SystemClient]
  · rw [Run_write_error rc i conn err hup hid hw]
    simp [hup, hid, Call.isNewClient, Call.isAddClient2SystemClient]
  · rw [Run_connected rc i conn hup hid hw]
    simp [hup, hid, Call.isNewClient, Call.isAddClient2SystemClient]

/-- C2 at a request that creates a session and at one whose upgrade fails. -/
theorem C2_session_created_iff_witness :
    ((Controller.Run sampleCodes sampleConnected).countP Call.isNewClient = 1 ∧
      (Controller.Run sampleCodes sampleConnected).countP
        Call.isAddClient2SystemClient = 1) ∧
    (Controller.Run sampleCodes sampleUpgradeError =
        [.Upgrade, .Errorf "bad handshake", .NotFound] ∧
      ∀ m : ClientManager, m.after (Controller.Run sampleCodes sampleUpgradeError) = m) :=
  ⟨(C2_session_created_iff sampleCodes sampleConnected).1 ⟨⟨7, rfl⟩, by decide⟩,
   (C2_session_created_iff sampleCodes sampleUpgradeError).2.2 "bad handshake" rfl⟩

/-- C3: in every run of `Controller.Run` the connect event is sent at most
once, and whenever it is sent for a session, that session was first created
(`NewClient`), then inserted into the Group Table
(`Manager.AddClient2SystemClient`), and only then announced on
`Manager.Connect`. -/
theorem C3_create_insert_connect_order (rc : retcode.Codes) (i : Input) :
    (Controller.Run rc i).countP Call.isConnectSend ≤ 1 ∧
    ∀ c : Client, Call.ConnectSend c ∈ Controller.Run rc i →
      occursBefore (.NewClient c.ClientId c.SystemId c.Socket)
        (.AddClient2SystemClient c.SystemId c) (Controller.Run rc i) = true ∧
      occursBefore (.AddClient2SystemClient c.SystemId c) (.ConnectSend c)
        (Controller.Run rc i) = true ∧
      c = NewClient c.ClientId c.SystemId c.Socket ∧
      (Controller.Run rc i).countP Call.isConnectSend = 1 := by
  rcases Run_cases i with ⟨err, hup⟩ | ⟨conn, hup, hid⟩ | ⟨conn, err, hup, hid, hw⟩ |
      ⟨conn, hup, hid, hw⟩
  · rw [Run_upgrade_error rc i err hup]
    simp [Call.isConnectSend]
  · rw [Run_empty_systemId rc i conn hup hid]
    simp [Call.isConnectSend]
  · rw [Run_write_error rc i conn err hup hid hw]
    simp [Call.isConnectSend]
  · rw [Run_connected rc i conn hup hid hw]
    refine ⟨by simp [Call.isConnectSend], ?_⟩
    intro c hc
    simp only [List.mem_cons, List.mem_singleton, reduceCtorEq, false_or, Call.ConnectSend.injEq,
      List.not_mem_nil, or_false] at hc
    subst hc
    simp [occursBefore, NewClient, Call.isConnectSend]

/-- C3 at a request that emits a connect event. -/
theorem C3_create_insert_connect_order_witness :
    Call.ConnectSend ⟨"id1", "sys1", 7⟩ ∈ Controller.Run sampleCodes sampleConnected ∧
    occursBefore (.NewClient "id1" "sys1" 7) (.AddClient2SystemClient "sys1" ⟨"id1", "sys1", 7⟩)
      (Controller.Run sampleCodes sampleConnected) = true ∧
    occursBefore (.AddClient2SystemClient "sys1" ⟨"id1", "sys1", 7⟩)
      (.ConnectSend ⟨"id1", "sys1", 7⟩) (Controller.Run sampleCodes sampleConnected) = true :=
  have hmem : Call.ConnectSend ⟨"id1", "sys1", 7⟩ ∈
      Controller.Run sampleCodes sampleConnected := by decide
  have h := (C3_create_insert_connect_order sampleCodes sampleConnected).2 _ hmem
  ⟨hmem, h.1, h.2.1⟩

/-- C4 fails as stated: at a request on connection 7 for group "sys1" whose
client-id reply is written, a session is created, but the send on
`Manager.Connect` comes neither before the read loop is started nor before the
client-id reply is written; it comes after both. -/
theorem C4_connect_precedes_counterexample :
    Call.NewClient "id1" "sys1" 7 ∈ Controller.Run sampleCodes sampleConnected ∧
    occursBefore (.ConnectSend ⟨"id1", "sys1", 7⟩) (.Read ⟨"id1", "sys1", 7⟩)
      (Controller.Run sampleCodes sampleConnected) = false ∧
    occursBefore (.ConnectSend ⟨"id1", "sys1", 7⟩) (.ConnRender 7 ⟨"id1"⟩)
      (Controller.Run sampleCodes sampleConnected) = false ∧
    occursBefore (.Read ⟨"id1", "sys1", 7⟩) (.ConnectSend ⟨"id1", "sys1", 7⟩)
      (Controller.Run sampleCodes sampleConnected) = true ∧
    occursBefore (.ConnRender 7 ⟨"id1"⟩) (.ConnectSend ⟨"id1", "sys1", 7⟩)
      (Controller.Run sampleCodes sampleConnected) = true := by
  decide

/-- C4, amended: in every run of `Controller.Run` that creates a session, the
read loop is started (`clientSocket.Read`) before the client-id reply is
written by `api.ConnRender`; the send on `Manager.Connect` happens exactly
when that write succeeds, and then it comes after both the start of the read
loop and the write of the reply, as the last call of `Run`. -/
theorem C4_connect_follows_read_and_reply (rc : retcode.Codes) (i : Input) (conn : Conn)
    (hup : i.Upgrade = .ok conn) (hid : len (i.FormValue "systemId") ≠ 0) :
    occursBefore (.Read (NewClient i.GenClientId (i.FormValue "systemId") conn))
      (.ConnRender conn ⟨i.GenClientId⟩) (Controller.Run rc i) = true ∧
    (Call.ConnectSend (NewClient i.GenClientId (i.FormValue "systemId") conn) ∈
        Controller.Run rc i ↔ i.ConnRender conn ⟨i.GenClientId⟩ = none) ∧
    ∀ c : Client, Call.ConnectSend c ∈ Controller.Run rc i →
      c = NewClient i.GenClientId (i.FormValue "systemId") conn ∧
      occursBefore (.Read c) (.ConnectSend c) (Controller.Run rc i) = true ∧
      occursBefore (.ConnRender conn ⟨i.GenClientId⟩) (.ConnectSend c)
        (Controller.Run rc i) = true ∧
      (Controller.Run rc i).getLast? = some (.ConnectSend c) := by
  cases hw : i.ConnRender conn ⟨i.GenClientId⟩ with
  | some err =>
    rw [Run_write_error rc i conn err hup hid hw]
    simp [occursBefore]
  | none =>
    rw [Run_connected rc i conn hup hid hw]
    refine ⟨by simp [occursBefore], by simp, ?_⟩
    intro c hc
    simp only [List.mem_cons, List.mem_singleton, reduceCtorEq, false_or, Call.ConnectSend.injEq,
      List.not_mem_nil, or_false] at hc
    subst hc
    simp [occursBefore]

/-- C4, amended, at a request that creates a session and is connected. -/
theorem C4_connect_follows_read_and_reply_witness :
    occursBefore (.Read ⟨"id1", "sys1", 7⟩) (.ConnRender 7 ⟨"id1"⟩)
      (Controller.Run sampleCodes sampleConnected) = true ∧
    (Controller.Run sampleCodes sampleConnected).getLast? =
      some (.ConnectSend ⟨"id1", "sys1", 7⟩) :=
  have h := C4_connect_follows_read_and_reply sampleCodes sampleConnected 7 rfl (by decide)
  ⟨h.1, (h.2.2 ⟨"id1", "sys1", 7⟩ (by decide)).2.2.2⟩

/-- The insertion makes the session a member of its group. -/
theorem member_AddClient2SystemClient (m : ClientManager) (systemId : String) (c : Client) :
    (m.AddClient2SystemClient systemId c).member systemId c = true := by
  unfold ClientManager.AddClient2SystemClient ClientManager.member
  split
  · simpa
  · simp

/-- The insertion queues no event. -/
theorem events_AddClient2SystemClient (m : ClientManager) (systemId : String) (c : Client) :
    (m.AddClient2SystemClient systemId c).Connect = m.Connect ∧
    (m.AddClient2SystemClient systemId c).DisConnect = m.DisConnect := by
  unfold ClientManager.AddClient2SystemClient
  split <;> simp

/-- The memberships after an insertion: those before it, and the new one. -/
theorem mem_AddClient2SystemClient (m : ClientManager) (systemId : String) (c : Client)
    (p : String × Client) :
    p ∈ (m.AddClient2SystemClient systemId c).GroupTable ↔
      p ∈ m.GroupTable ∨ p = (systemId, c) := by
  unfold ClientManager.AddClient2SystemClient
  split
  · constructor
    · exact Or.inl
    · rintro (h | rfl)
      · exact h
      · assumption
  · simp

/-- The teardown of a session removes its membership, keeps every other
membership, queues one disconnect event and no connect event. -/
theorem teardown_spec (m : ClientManager) (c : Client) :
    (m.teardown c).member c.SystemId c = false ∧
    (∀ p, p ≠ (c.SystemId, c) → (p ∈ (m.teardown c).GroupTable ↔ p ∈ m.GroupTable)) ∧
    (m.teardown c).Connect = m.Connect ∧
    (m.teardown c).DisConnect = m.DisConnect ++ [c] := by
  refine ⟨by simp [ClientManager.teardown, ClientManager.member], ?_, rfl, rfl⟩
  intro p hp
  simp [ClientManager.teardown, List.mem_filter, hp]

/-- The manager after the calls of the write-error path: the session is
inserted, then torn down when the connection is closed. -/
theorem after_write_error (m : ClientManager) (clientId systemId : String) (conn : Conn) :
    m.after [.Upgrade, .SetReadLimit conn maxMessageSize, .FormValue "systemId",
       .GenClientId, .NewClient clientId systemId conn,
       .AddClient2SystemClient systemId (NewClient clientId systemId conn),
       .Read (NewClient clientId systemId conn),
       .ConnRender conn ⟨clientId⟩, .Close conn] =
      (m.AddClient2SystemClient systemId (NewClient clientId systemId conn)).teardown
        (NewClient clientId systemId conn) := by
  simp [ClientManager.after, Broker.step, NewClient, List.filter]

/-- C5: a write error is terminal and drives the standard teardown path.  In
every run of `Controller.Run` in which the session has been created, inserted
into the Group Table and its read loop started, but writing the client-id
reply (`api.ConnRender`) fails, `Run` releases the connection handle
(`conn.Close`) as its last call and sends no connect event; closing the handle
ends the session's read loop, which removes the session from the Group Table
and emits exactly one disconnect event, so that after `Run` the session is no
longer a member of its group, while every other membership is untouched. -/
theorem C5_write_error_teardown (rc : retcode.Codes) (i : Input) (conn : Conn)
    (err : String) (hup : i.Upgrade = .ok conn) (hid : len (i.FormValue "systemId") ≠ 0)
    (hw : i.ConnRender conn ⟨i.GenClientId⟩ = some err) :
    (∃ before, Controller.Run rc i =
        before ++ [.ConnRender conn ⟨i.GenClientId⟩, .Close conn] ∧
      occursBefore
        (.AddClient2SystemClient (i.FormValue "systemId")
          (NewClient i.GenClientId (i.FormValue "systemId") conn))
        (.Read (NewClient i.GenClientId (i.FormValue "systemId") conn)) before = true ∧
      ∀ m : ClientManager,
        (m.after before).member (i.FormValue "systemId")
          (NewClient i.GenClientId (i.FormValue "systemId") conn) = true ∧
        (m.after before).DisConnect = m.DisConnect) ∧
    (Controller.Run rc i).countP Call.isConnectSend = 0 ∧
    ∀ m : ClientManager,
      (m.after (Controller.Run rc i)).member (i.FormValue "systemId")
        (NewClient i.GenClientId (i.FormValue "systemId") conn) = false ∧
      (m.after (Controller.Run rc i)).DisConnect =
        m.DisConnect ++ [NewClient i.GenClientId (i.FormValue "systemId") conn] ∧
      (m.after (Controller.Run rc i)).Connect = m.Connect ∧
      ∀ p, p ≠ (i.FormValue "systemId",
          NewClient i.GenClientId (i.FormValue "systemId") conn) →
        (p ∈ (m.after (Controller.Run rc i)).GroupTable ↔ p ∈ m.GroupTable) := by
  rw [Run_write_error rc i conn err hup hid hw]
  refine ⟨⟨[.Upgrade, .SetReadLimit conn maxMessageSize, .FormValue "systemId",
       .GenClientId, .NewClient i.GenClientId (i.FormValue "systemId") conn,
       .AddClient2SystemClient (i.FormValue "systemId")
          (NewClient i.GenClientId (i.FormValue "systemId") conn),
       .Read (NewClient i.GenClientId (i.FormValue "systemId") conn)], by simp,
       by simp [occursBefore], ?_⟩,
    by simp [Call.isConnectSend], ?_⟩
  · intro m
    have h : m.after [.Upgrade, .SetReadLimit conn maxMessageSize, .FormValue "systemId",
        .GenClientId, .NewClient i.GenClientId (i.FormValue "systemId") conn,
        .AddClient2SystemClient (i.FormValue "systemId")
          (NewClient i.GenClientId (i.FormValue "systemId") conn),
        .Read (NewClient i.GenClientId (i.FormValue "systemId") conn)] =
        m.AddClient2SystemClient (i.FormValue "systemId")
          (NewClient i.GenClientId (i.FormValue "systemId") conn) := by
      simp [ClientManager.after, Broker.step]
    rw [h]
    exact ⟨member_AddClient2SystemClient m _ _, (events_AddClient2SystemClient m _ _).2⟩
  · intro m
    rw [after_write_error m i.GenClientId (i.FormValue "systemId") conn]
    have ht := teardown_spec (m.AddClient2SystemClient (i.FormValue "systemId")
      (NewClient i.GenClientId (i.FormValue "systemId") conn))
      (NewClient i.GenClientId (i.FormValue "systemId") conn)
    have he := events_AddClient2SystemClient m (i.FormValue "systemId")
      (NewClient i.GenClientId (i.FormValue "systemId") conn)
    refine ⟨ht.1, ?_, ?_, ?_⟩
    · rw [ht.2.2.2, he.2]
    · rw [ht.2.2.1, he.1]
    · intro p hp
      rw [ht.2.1 p hp, mem_AddClient2SystemClient]
      constructor
      · rintro (h | h)
        · exact h
        · exact absurd h hp
      · exact Or.inl

/-- C5 at a request whose client-id reply fails to be written, on a manager
that already holds another session of the group. -/
theorem C5_write_error_teardown_witness :
    (Controller.Run sampleCodes sampleWriteError).countP Call.isConnectSend = 0 ∧
    (sampleManager.after (Controller.Run sampleCodes sampleWriteError)).member "sys1"
      ⟨"id1", "sys1", 7⟩ = false ∧
    (sampleManager.after (Controller.Run sampleCodes sampleWriteError)).DisConnect =
      [⟨"id1", "sys1", 7⟩] ∧
    (sampleManager.after (Controller.Run sampleCodes sampleWriteError)).GroupTable =
      [("sys1", ⟨"id0", "sys1", 3⟩)] :=
  have h := C5_write_error_teardown sampleCodes sampleWriteError 7 "broken pipe" rfl
    (by decide) rfl
  ⟨h.2.1, (h.2.2 sampleManager).1, (h.2.2 sampleManager).2.1, by decide⟩

/-- C6: in every run of `Controller.Run` that creates a session, the session
is created with the request's systemId and with the client id of a single
`util.GenClientId` call; it is inserted into the Group Table once, under that
same group id and no other; and the client id reported in the reply
(`renderData.ClientId`) is the client id the session was created with. -/
theorem C6_one_group_one_identity (rc : retcode.Codes) (i : Input)
    (clientId systemId : String) (conn : Conn)
    (hnew : Call.NewClient clientId systemId conn ∈ Controller.Run rc i) :
    systemId = i.FormValue "systemId" ∧
    clientId = i.GenClientId ∧
    (Controller.Run rc i).countP Call.isGenClientId = 1 ∧
    (Controller.Run rc i).filter Call.isNewClient = [.NewClient clientId systemId conn] ∧
    (Controller.Run rc i).filter Call.isAddClient2SystemClient =
      [.AddClient2SystemClient systemId (NewClient clientId systemId conn)] ∧
    (NewClient clientId systemId conn).SystemId = systemId ∧
    (NewClient clientId systemId conn).ClientId = clientId ∧
    (Controller.Run rc i).filter Call.isConnRender = [.ConnRender conn ⟨clientId⟩] := by
  rcases Run_cases i with ⟨err, hup⟩ | ⟨conn0, hup, hid⟩ | ⟨conn0, err, hup, hid, hw⟩ |
      ⟨conn0, hup, hid, hw⟩
  · rw [Run_upgrade_error rc i err hup] at hnew
    simp at hnew
  · rw [Run_empty_systemId rc i conn0 hup hid] at hnew
    simp at hnew
  · rw [Run_write_error rc i conn0 err hup hid hw] at hnew ⊢
    simp only [List.mem_cons, reduceCtorEq, Call.NewClient.injEq, false_or, List.not_mem_nil,
      or_false] at hnew
    obtain ⟨rfl, rfl, rfl⟩ := hnew
    simp [Call.isGenClientId, Call.isNewClient, Call.isAddClient2SystemClient,
      Call.isConnRender, NewClient, List.filter]
  · rw [Run_connected rc i conn0 hup hid hw] at hnew ⊢
    simp only [List.mem_cons, reduceCtorEq, Call.NewClient.injEq, false_or, List.not_mem_nil,
      or_false] at hnew
    obtain ⟨rfl, rfl, rfl⟩ := hnew
    simp [Call.isGenClientId, Call.isNewClient, Call.isAddClient2SystemClient,
      Call.isConnRender, NewClient, List.filter]

/-- C6 at a request that creates a session. -/
theorem C6_one_group_one_identity_witness :
    Call.NewClient "id1" "sys1" 7 ∈ Controller.Run sampleCodes sampleConnected ∧
    (Controller.Run sampleCodes sampleConnected).filter Call.isAddClient2SystemClient =
      [.AddClient2SystemClient "sys1" (NewClient "id1" "sys1" 7)] ∧
    (Controller.Run sampleCodes sampleConnected).filter Call.isConnRender =
      [.ConnRender 7 ⟨"id1"⟩] :=
  have hnew : Call.NewClient "id1" "sys1" 7 ∈ Controller.Run sampleCodes sampleConnected := by
    decide
  have h := C6_one_group_one_identity sampleCodes sampleConnected "id1" "sys1" 7 hnew
  ⟨hnew, h.2.2.2.2.1, h.2.2.2.2.2.2.2⟩

/-- C7: `maxMessageSize` is 8192, and for every request whose upgrade succeeds
`Controller.Run` sets the connection's read limit to it exactly once, as the
first call after the upgrade: before the systemId is read and checked, before
the session is created and before the read loop is started. -/
theorem C7_read_limit_set_first (rc : retcode.Codes) (i : Input) (conn : Conn)
    (hup : i.Upgrade = .ok conn) :
    maxMessageSize = 8192 ∧
    (Controller.Run rc i).filter Call.isSetReadLimit = [.SetReadLimit conn 8192] ∧
    (∃ rest, Controller.Run rc i = .Upgrade :: .SetReadLimit conn 8192 :: rest) ∧
    occursBefore (.SetReadLimit conn 8192) (.FormValue "systemId")
      (Controller.Run rc i) = true ∧
    ∀ call ∈ Controller.Run rc i,
      (call.isNewClient = true ∨ call.isRead = true ∨ call.isRender = true ∨
        call.isConnRender = true) →
      occursBefore (.SetReadLimit conn 8192) call (Controller.Run rc i) = true := by
  rcases Run_cases i with ⟨err, hup0⟩ | ⟨conn0, hup0, hid⟩ | ⟨conn0, err, hup0, hid, hw⟩ |
      ⟨conn0, hup0, hid, hw⟩
  · rw [hup] at hup0
    cases hup0
  · have hc : conn0 = conn := by
      rw [hup] at hup0
      cases hup0
      rfl
    subst hc
    rw [Run_empty_systemId rc i conn0 hup hid]
    simp [maxMessageSize, occursBefore, Call.isSetReadLimit, Call.isNewClient, Call.isRead,
      Call.isRender, Call.isConnRender, List.filter]
  · have hc : conn0 = conn := by
      rw [hup] at hup0
      cases hup0
      rfl
    subst hc
    rw [Run_write_error rc i conn0 err hup hid hw]
    simp [maxMessageSize, occursBefore, Call.isSetReadLimit, Call.isNewClient, Call.isRead,
      Call.isRender, Call.isConnRender, List.filter]
  · have hc : conn0 = conn := by
      rw [hup] at hup0
      cases hup0
      rfl
    subst hc
    rw [Run_connected rc i conn0 hup hid hw]
    simp [maxMessageSize, occursBefore, Call.isSetReadLimit, Call.isNewClient, Call.isRead,
      Call.isRender, Call.isConnRender, List.filter]

/-- C7 at a request that creates a session. -/
theorem C7_read_limit_set_first_witness :
    (Controller.Run sampleCodes sampleConnected).filter Call.isSetReadLimit =
      [.SetReadLimit 7 8192] ∧
    occursBefore (.SetReadLimit 7 8192) (.Read ⟨"id1", "sys1", 7⟩)
      (Controller.Run sampleCodes sampleConnected) = true :=
  have h := C7_read_limit_set_first sampleCodes sampleConnected 7 rfl
  ⟨h.2.1, h.2.2.2.2 (.Read ⟨"id1", "sys1", 7⟩) (by decide) (Or.inr (Or.inl rfl))⟩

end servers

/-! ## The registration handler, `register.Controller.Run` -/

namespace register

/-- The calls of `Controller.Run` when the body fails to decode. -/
theorem Run_decode_error (rc : retcode.Codes) (i : Input) (err : String)
    (hd : i.Decode = .error err) :
    Controller.Run rc i = [.Decode, .WriteHeader StatusBadRequest] := by
  simp [Controller.Run, hd]

/-- The calls of `Controller.Run` when the validator rejects the input. -/
theorem Run_invalid (rc : retcode.Codes) (i : Input) (d : inputData) (err : String)
    (hd : i.Decode = .ok d) (hv : i.Validate d = some err) :
    Controller.Run rc i = [.Decode, .Validate d, .Render rc.FAIL err []] := by
  simp [Controller.Run, hd, hv]

/-- The calls of `Controller.Run` when the registration fails. -/
theorem Run_register_error (rc : retcode.Codes) (i : Input) (d : inputData) (err : String)
    (hd : i.Decode = .ok d) (hv : i.Validate d = none)
    (hr : i.Register d.SystemId = some err) :
    Controller.Run rc i =
      [.Decode, .Validate d, .Register d.SystemId, .Render rc.FAIL err []] := by
  simp [Controller.Run, hd, hv, hr]

/-- The calls of `Controller.Run` when the registration succeeds. -/
theorem Run_registered (rc : retcode.Codes) (i : Input) (d : inputData)
    (hd : i.Decode = .ok d) (hv : i.Validate d = none)
    (hr : i.Register d.SystemId = none) :
    Controller.Run rc i =
      [.Decode, .Validate d, .Register d.SystemId, .Render rc.SUCCESS "success" []] := by
  simp [Controller.Run, hd, hv, hr]

/-- The four paths of `Controller.Run`: every run takes exactly one of them. -/
theorem Run_register_cases (i : Input) :
    (∃ err, i.Decode = .error err) ∨
    (∃ d err, i.Decode = .ok d ∧ i.Validate d = some err) ∨
    (∃ d err, i.Decode = .ok d ∧ i.Validate d = none ∧
        i.Register d.SystemId = some err) ∨
    (∃ d, i.Decode = .ok d ∧ i.Validate d = none ∧ i.Register d.SystemId = none) := by
  cases hd : i.Decode with
  | error err => exact Or.inl ⟨err, rfl⟩
  | ok d =>
    cases hv : i.Validate d with
    | some err => exact Or.inr (Or.inl ⟨d, err, rfl, hv⟩)
    | none =>
      cases hr : i.Register d.SystemId with
      | some err => exact Or.inr (Or.inr (Or.inl ⟨d, err, rfl, hv, hr⟩))
      | none => exact Or.inr (Or.inr (Or.inr ⟨d, rfl, hv, hr⟩))

/-- C8: `Controller.Run` calls `servers.Register` at most once per request; it
calls it if and only if the request body decodes as JSON and `api.Validate`
accepts the decoded input, and then its argument is exactly the decoded
SystemId; for a malformed body or a rejected input it is never called. -/
theorem C8_register_called_iff_valid (rc : retcode.Codes) (i : Input) :
    (Controller.Run rc i).countP Call.isRegister ≤ 1 ∧
    ((Controller.Run rc i).countP Call.isRegister = 1 ↔
      ∃ d, i.Decode = .ok d ∧ i.Validate d = none) ∧
    (∀ d, i.Decode = .ok d → i.Validate d = none →
      (Controller.Run rc i).filter Call.isRegister = [.Register d.SystemId]) ∧
    (∀ systemId, Call.Register systemId ∈ Controller.Run rc i →
      ∃ d, i.Decode = .ok d ∧ i.Validate d = none ∧ systemId = d.SystemId) ∧
    ((∃ err, i.Decode = .error err) →
      (Controller.Run rc i).countP Call.isRegister = 0) ∧
    (∀ d err, i.Decode = .ok d → i.Validate d = some err →
      (Controller.Run rc i).countP Call.isRegister = 0) := by
  rcases Run_register_cases i with ⟨err, hd⟩ | ⟨d, err, hd, hv⟩ | ⟨d, err, hd, hv, hr⟩ |
      ⟨d, hd, hv, hr⟩
  · rw [Run_decode_error rc i err hd]
    simp [hd, Call.isRegister]
  · rw [Run_invalid rc i d err hd hv]
    simp [hd, hv, Call.isRegister]
  · rw [Run_register_error rc i d err hd hv hr]
    simp [hd, hv, Call.isRegister, List.filter]
    intro d1 e hd1
    subst hd1
    simp [hv]
  · rw [Run_registered rc i d hd hv hr]
    simp [hd, hv, Call.isRegister, List.filter]
    intro d1 e hd1
    subst hd1
    simp [hv]

/-- C8 at a valid request, a malformed one and a rejected one. -/
theorem C8_register_called_iff_valid_witness :
    (Controller.Run sampleCodes sampleRegistered).filter Call.isRegister =
      [.Register "sys1"] ∧
    (Controller.Run sampleCodes sampleMalformed).countP Call.isRegister = 0 ∧
    (Controller.Run sampleCodes sampleInvalid).countP Call.isRegister = 0 :=
  ⟨(C8_register_called_iff_valid sampleCodes sampleRegistered).2.2.1 ⟨"sys1"⟩ rfl (by decide),
   (C8_register_called_iff_valid sampleCodes sampleMalformed).2.2.2.2.1
      ⟨"invalid character", rfl⟩,
   (C8_register_called_iff_valid sampleCodes sampleInvalid).2.2.2.2.2 ⟨""⟩
      "SystemId is required" rfl (by decide)⟩

/-- C9 fails as stated: at a request whose body is not JSON, `Controller.Run`
decodes, writes the status header 400 and returns; `api.Render` is not called,
whereas a rejected input is answered through `api.Render`. -/
theorem C9_malformed_body_counterexample :
    Controller.Run sampleCodes sampleMalformed = [.Decode, .WriteHeader 400] ∧
    (Controller.Run sampleCodes sampleMalformed).countP Call.isRender = 0 ∧
    (Controller.Run sampleCodes sampleInvalid).filter Call.isRender =
      [.Render (-1) "SystemId is required" []] := by
  decide

/-- C9, amended: for every request whose body fails to decode as JSON,
`Controller.Run` answers with the bare HTTP status `http.StatusBadRequest`
(400) through `w.WriteHeader` and returns; it does not call `api.Render`, so
no Response Envelope is written. -/
theorem C9_malformed_body_bad_request (rc : retcode.Codes) (i : Input) (err : String)
    (hd : i.Decode = .error err) :
    Controller.Run rc i = [.Decode, .WriteHeader StatusBadRequest] ∧
    StatusBadRequest = 400 ∧
    (Controller.Run rc i).countP Call.isRender = 0 := by
  rw [Run_decode_error rc i err hd]
  simp [Call.isRender, StatusBadRequest]

/-- C9, amended, at a request whose body is not JSON. -/
theorem C9_malformed_body_bad_request_witness :
    Controller.Run sampleCodes sampleMalformed = [.Decode, .WriteHeader StatusBadRequest] ∧
    (Controller.Run sampleCodes sampleMalformed).countP Call.isRender = 0 :=
  have h := C9_malformed_body_bad_request sampleCodes sampleMalformed "invalid character" rfl
  ⟨h.1, h.2.2⟩

/-- C10: for every request whose body decodes as JSON, `Controller.Run` renders
exactly one Response Envelope, with an empty data list, fixed by the first
failing step: `retcode.FAIL` with the validator's message if `api.Validate`
fails, `retcode.FAIL` with the registration's message if `servers.Register`
fails, and `retcode.SUCCESS` with "success" if both return no error; with
distinct SUCCESS and FAIL codes, the success envelope is rendered only then. -/
theorem C10_one_envelope_by_first_failure (rc : retcode.Codes) (i : Input) (d : inputData)
    (hd : i.Decode = .ok d) :
    (Controller.Run rc i).countP Call.isRender = 1 ∧
    (∀ code msg data, Call.Render code msg data ∈ Controller.Run rc i → data = []) ∧
    (∀ err, i.Validate d = some err →
      (Controller.Run rc i).filter Call.isRender = [.Render rc.FAIL err []]) ∧
    (∀ err, i.Validate d = none → i.Register d.SystemId = some err →
      (Controller.Run rc i).filter Call.isRender = [.Render rc.FAIL err []]) ∧
    (i.Validate d = none → i.Register d.SystemId = none →
      (Controller.Run rc i).filter Call.isRender = [.Render rc.SUCCESS "success" []]) ∧
    (rc.SUCCESS ≠ rc.FAIL →
      (Call.Render rc.SUCCESS "success" [] ∈ Controller.Run rc i ↔
        i.Validate d = none ∧ i.Register d.SystemId = none)) := by
  cases hv : i.Validate d with
  | some err =>
    rw [Run_invalid rc i d err hd hv]
    simp [Call.isRender, List.filter]
    intro hne h _
    exact absurd h hne
  | none =>
    cases hr : i.Register d.SystemId with
    | some err =>
      rw [Run_register_error rc i d err hd hv hr]
      simp [Call.isRender, List.filter]
      intro hne h _
      exact absurd h hne
    | none =>
      rw [Run_registered rc i d hd hv hr]
      simp [Call.isRender, List.filter]

/-- C10 at a registered request, a rejected one and one whose registration
fails. -/
theorem C10_one_envelope_by_first_failure_witness :
    (Controller.Run sampleCodes sampleRegistered).filter Call.isRender =
      [.Render 0 "success" []] ∧
    (Controller.Run sampleCodes sampleInvalid).filter Call.isRender =
      [.Render (-1) "SystemId is required" []] ∧
    (Controller.Run sampleCodes sampleRegisterError).filter Call.isRender =
      [.Render (-1) "etcd unavailable" []] :=
  ⟨(C10_one_envelope_by_first_failure sampleCodes sampleRegistered ⟨"sys1"⟩ rfl).2.2.2.2.1
      (by decide) rfl,
   (C10_one_envelope_by_first_failure sampleCodes sampleInvalid ⟨""⟩ rfl).2.2.1
      "SystemId is required" (by decide),
   (C10_one_envelope_by_first_failure sampleCodes sampleRegisterError ⟨"sys1"⟩ rfl).2.2.2.1
      "etcd unavailable" (by decide) rfl⟩

end register
